import Mathlib

/-
Verification of the agent-monitor OpenCode plugin's session/event core:
a shallow embedding of the tool registry, the input sanitizer
(src/constants/tools.ts, sanitizeToolInput / sanitizeValue), the
SessionManager state machine (src/services/session-manager.ts) and the
UserInteractionHandler (src/services/user-interaction-handler.ts),
together with theorems about the properties the specification states.
Timestamps (Date.now()) are passed explicitly as Nat arguments; timers
and deferred deletions are outside the model.
-/

namespace AgentMonitor

set_option maxRecDepth 100000

/-- JavaScript runtime values as they appear in tool-argument objects.
vnull and vobj both have JS typeof "object". -/
inductive JValue where
  | vstr (s : String)
  | vnum (n : Int)
  | vbool (b : Bool)
  | vundef
  | vnull
  | vobj (fields : List (String × JValue))

/-- The JavaScript typeof operator restricted to the values modelled. -/
def typeofJS : JValue → String
  | .vstr _ => "string"
  | .vnum _ => "number"
  | .vbool _ => "boolean"
  | .vundef => "undefined"
  | .vnull => "object"
  | .vobj _ => "object"

/-- Length of a string value; 0 on non-strings (only read under a string guard). -/
def jsStrLen : JValue → Nat
  | .vstr s => s.length
  | _ => 0

/-- JS s.substring(0, n): the first n characters. -/
def jsSubstring (s : String) (n : Nat) : String :=
  String.mk (s.data.take n)

/-- JS s.toLowerCase() on the ASCII range. -/
def toLowerJS (s : String) : String :=
  String.mk (s.data.map Char.toLower)

/-- JS s.startsWith(pre). -/
def startsWithJS (s pre : String) : Bool :=
  pre.data.isPrefixOf s.data

/-- Whether the character list sub occurs as a contiguous sublist of l. -/
def listContains (l sub : List Char) : Bool :=
  (List.range (l.length + 1)).any (fun i => sub.isPrefixOf (l.drop i))

/-- JS s.includes(sub). -/
def strContains (s sub : String) : Bool :=
  listContains s.data sub.data

/-- An insertion-ordered association map, as a JS Map of string keys. -/
def mapGet {α : Type} : List (String × α) → String → Option α
  | [], _ => none
  | kv :: rest, k => if kv.1 = k then some kv.2 else mapGet rest k

/-- JS Map.set: update in place when the key exists, else append. -/
def mapSet {α : Type} : List (String × α) → String → α → List (String × α)
  | [], k, v => [(k, v)]
  | kv :: rest, k, v => if kv.1 = k then (k, v) :: rest else kv :: mapSet rest k v

/-- JS Map.delete restricted to its effect on the entries. -/
def mapDelete {α : Type} : List (String × α) → String → List (String × α)
  | [], _ => []
  | kv :: rest, k => if kv.1 = k then mapDelete rest k else kv :: mapDelete rest k

/-- JS Set.add: sets are modelled as duplicate-free insertion-ordered lists. -/
def setAdd (l : List String) (x : String) : List String :=
  if l.contains x then l else l ++ [x]

/-- JS Set.delete. -/
def setDelete (l : List String) (x : String) : List String :=
  l.filter (fun y => y ≠ x)

/-- Tool metadata from src/constants/tools.ts (ToolMetadata). -/
structure ToolMetadata where
  name : String
  category : String
  description : String
  sensitive : Bool := false

/-- The values of the CLAUDE_TOOLS constant, in declaration order. -/
def CLAUDE_TOOLS : List String :=
  ["Task", "Read", "Write", "Edit", "MultiEdit", "Glob", "Grep", "LS",
   "Bash", "BashOutput", "KillShell", "WebFetch", "WebSearch",
   "NotebookRead", "NotebookEdit", "TodoWrite", "ExitPlanMode"]

/-- TOOL_REGISTRY: every Claude tool with its category and sensitivity. -/
def TOOL_REGISTRY : List (String × ToolMetadata) :=
  [("Task", { name := "Task", category := "Subagent",
              description := "Launch a new agent to handle complex tasks" }),
   ("Read", { name := "Read", category := "File Operations",
              description := "Read file contents", sensitive := true }),
   ("Write", { name := "Write", category := "File Operations",
               description := "Write content to a file", sensitive := true }),
   ("Edit", { name := "Edit", category := "File Operations",
              description := "Edit file content", sensitive := true }),
   ("MultiEdit", { name := "MultiEdit", category := "File Operations",
                   description := "Make multiple edits to a file", sensitive := true }),
   ("Glob", { name := "Glob", category := "Search Operations",
              description := "Find files by pattern" }),
   ("Grep", { name := "Grep", category := "Search Operations",
              description := "Search file contents" }),
   ("LS", { name := "LS", category := "Search Operations",
            description := "List directory contents" }),
   ("Bash", { name := "Bash", category := "Shell Operations",
              description := "Execute bash commands", sensitive := true }),
   ("BashOutput", { name := "BashOutput", category := "Shell Operations",
                    description := "Read output from background shell" }),
   ("KillShell", { name := "KillShell", category := "Shell Operations",
                   description := "Kill a background shell" }),
   ("WebFetch", { name := "WebFetch", category := "Web Operations",
                  description := "Fetch and process web content" }),
   ("WebSearch", { name := "WebSearch", category := "Web Operations",
                   description := "Search the web" }),
   ("NotebookRead", { name := "NotebookRead", category := "Notebook Operations",
                      description := "Read Jupyter notebook", sensitive := true }),
   ("NotebookEdit", { name := "NotebookEdit", category := "Notebook Operations",
                      description := "Edit Jupyter notebook", sensitive := true }),
   ("TodoWrite", { name := "TodoWrite", category := "Task Management",
                   description := "Manage task list" }),
   ("ExitPlanMode", { name := "ExitPlanMode", category := "Planning",
                      description := "Exit planning mode" })]

/-- isClaudeTool from src/constants/tools.ts. -/
def isClaudeTool (toolName : String) : Bool :=
  CLAUDE_TOOLS.contains toolName

/-- getToolMetadata: undefined for a name outside the registry. -/
def getToolMetadata (toolName : String) : Option ToolMetadata :=
  if isClaudeTool toolName then mapGet TOOL_REGISTRY toolName else none

/-- Truncation of a string value to its first n characters (JS substring). -/
def jsTruncate : JValue → Nat → JValue
  | .vstr s, n => .vstr (jsSubstring s n)
  | v, _ => v

/-- Truncation of a string value to 200 characters plus the marker suffix. -/
def jsTruncateMark : JValue → JValue
  | .vstr s => .vstr (jsSubstring s 200 ++ "... [truncated]")
  | v => v

/-- sanitizeValue from the claude-aligned sender: per-key truncation rules
for non-sensitive tools, in the source's check order. -/
def sanitizeValue (key : String) (value : JValue) : JValue :=
  if key = "command" ∧ typeofJS value = "string" then jsTruncate value 100
  else if key = "pattern" ∨ key = "glob" ∨ key = "path" then value
  else if typeofJS value = "string" ∧ 200 < jsStrLen value then jsTruncateMark value
  else if typeofJS value = "object" then JValue.vstr "[object]"
  else value

/-- sanitizeNonSensitiveArgs: sanitizeValue applied to every key/value pair. -/
def sanitizeNonSensitiveArgs (args : List (String × JValue)) : List (String × JValue) :=
  args.map (fun kv => (kv.1, sanitizeValue kv.1 kv.2))

/-- The redaction record sanitizeToolInput returns for sensitive tools;
sanitized models the JS field named underscore-sanitized. -/
structure SanitizedRecord where
  sanitized : Bool
  param_count : Nat
  param_types : List (String × String)

/-- The result of sanitizeToolInput: a redaction record for sensitive tools,
the per-value sanitized mapping otherwise. -/
inductive SanitizedInput where
  | redacted (r : SanitizedRecord)
  | plain (args : List (String × JValue))

/-- sanitizeToolInput from full-claude-plugin.ts / enhanced-claude-sender.ts. -/
def sanitizeToolInput (toolName : String) (args : List (String × JValue)) : SanitizedInput :=
  match getToolMetadata toolName with
  | some md =>
    if md.sensitive then
      .redacted { sanitized := true, param_count := args.length,
                  param_types := args.map (fun kv => (kv.1, typeofJS kv.2)) }
    else
      .plain (sanitizeNonSensitiveArgs args)
  | none => .plain (sanitizeNonSensitiveArgs args)

/-- How a session came into being (SessionState.source). -/
inductive Source where
  | startup
  | resume
  | clear
deriving DecidableEq

/-- SessionState from src/services/session-manager.ts. -/
structure SessionState where
  sessionId : String
  startTime : Nat
  lastActivity : Nat
  transcriptPath : String
  cwd : String
  source : Source
  isFirstMessage : Bool
  toolCallCount : Nat
  activeTools : List String
  completedTools : List String
  lastToolName : Option String
  lastToolArgs : Option (List (String × JValue))
  isResponding : Bool
  hasSubagent : Bool
  subagentCallId : Option String
  messageCount : Nat
  endReason : Option String
  errorDetails : Option JValue
  stopHookActive : Bool
  subagentStopHookActive : Bool

/-- The SessionManager's session map together with its constructor arguments;
idle timers are outside the model. -/
structure ManagerState where
  sessions : List (String × SessionState)
  cwd : String
  transcriptBasePath : String

/-- Lookup of a session record (SessionManager.getSession). -/
def lookupSession (m : ManagerState) (sessionId : String) : Option SessionState :=
  mapGet m.sessions sessionId

/-- The shared shape of every mutating SessionManager method: look the record
up, do nothing when it is absent, otherwise store the updated record. -/
def updateWith (m : ManagerState) (sessionId : String)
    (f : SessionState → SessionState) : ManagerState :=
  match lookupSession m sessionId with
  | none => m
  | some s => { m with sessions := mapSet m.sessions sessionId (f s) }

/-- checkForStopEvent: latch stopHookActive when the agent is not responding,
no tool is active, at least one message was processed and the latch is clear. -/
def checkForStopEvent (s : SessionState) : SessionState :=
  if s.isResponding = false ∧ s.activeTools = [] ∧ 0 < s.messageCount ∧
      s.stopHookActive = false then
    { s with stopHookActive := true }
  else s

/-- handleSubagentStop: latch subagentStopHookActive and clear hasSubagent,
but only when the subagent latch is not already set. -/
def handleSubagentStop (s : SessionState) : SessionState :=
  if s.hasSubagent = true ∧ s.subagentStopHookActive = false then
    { s with subagentStopHookActive := true, hasSubagent := false }
  else s

/-- The record-level effect of SessionManager.startTool. -/
def startToolS (sessionId : String) (s : SessionState) (toolName : String)
    (args : List (String × JValue)) (now : Nat) : SessionState :=
  let s1 := { s with
    lastActivity := now
    toolCallCount := s.toolCallCount + 1
    activeTools := setAdd s.activeTools toolName
    lastToolName := some toolName
    lastToolArgs := some args
    isFirstMessage := false }
  if toolName = "Task" then
    { s1 with
      hasSubagent := true
      subagentCallId := some (sessionId ++ "-task-" ++ toString now) }
  else s1

/-- The record-level effect of SessionManager.completeTool. -/
def completeToolS (s : SessionState) (toolName : String) : SessionState :=
  let s1 := { s with
    activeTools := setDelete s.activeTools toolName
    completedTools := setAdd s.completedTools toolName }
  let s2 := if toolName = "Task" ∧ s1.hasSubagent = true then handleSubagentStop s1 else s1
  if s2.activeTools = [] ∧ s2.isResponding = false then checkForStopEvent s2 else s2

/-- The record-level effect of SessionManager.setResponding. -/
def setRespondingS (s : SessionState) (responding : Bool) : SessionState :=
  let s1 := { s with isResponding := responding }
  if responding = false then checkForStopEvent s1 else s1

/-- The record-level effect of SessionManager.handleUserMessage. -/
def handleUserMessageS (s : SessionState) (now : Nat) : SessionState :=
  { s with
    messageCount := s.messageCount + 1
    isResponding := true
    lastActivity := now }

/-- SessionManager.initSession: resume reuses and updates the existing record;
every other case registers a fresh record with zeroed counters. -/
def initSession (m : ManagerState) (sessionId : String) (source : Option Source)
    (now : Nat) : SessionState × ManagerState :=
  let existing := lookupSession m sessionId
  match existing, source with
  | some s, some Source.resume =>
    let s1 := { s with source := Source.resume, lastActivity := now }
    (s1, { m with sessions := mapSet m.sessions sessionId s1 })
  | _, _ =>
    let actualSource := source.getD (if existing.isSome then Source.resume else Source.startup)
    let fresh : SessionState :=
      { sessionId := sessionId, startTime := now, lastActivity := now,
        transcriptPath := m.transcriptBasePath ++ "/" ++ sessionId ++ ".json",
        cwd := m.cwd, source := actualSource, isFirstMessage := true,
        toolCallCount := 0, activeTools := [], completedTools := [],
        lastToolName := none, lastToolArgs := none, isResponding := false,
        hasSubagent := false, subagentCallId := none, messageCount := 0,
        endReason := none, errorDetails := none, stopHookActive := false,
        subagentStopHookActive := false }
    (fresh, { m with sessions := mapSet m.sessions sessionId fresh })

/-- SessionManager.startTool. -/
def startTool (m : ManagerState) (sessionId toolName : String)
    (args : List (String × JValue)) (now : Nat) : ManagerState :=
  updateWith m sessionId (fun s => startToolS sessionId s toolName args now)

/-- SessionManager.completeTool. -/
def completeTool (m : ManagerState) (sessionId toolName : String) : ManagerState :=
  updateWith m sessionId (fun s => completeToolS s toolName)

/-- SessionManager.setResponding. -/
def setResponding (m : ManagerState) (sessionId : String) (responding : Bool) :
    ManagerState :=
  updateWith m sessionId (fun s => setRespondingS s responding)

/-- SessionManager.handleUserMessage. -/
def handleUserMessage (m : ManagerState) (sessionId : String) (now : Nat) :
    ManagerState :=
  updateWith m sessionId (fun s => handleUserMessageS s now)

/-- SessionManager.endSession's record-level effect (the deferred removal and
timer cleanup are outside the model). -/
def endSession (m : ManagerState) (sessionId reason : String)
    (error : Option JValue) : ManagerState :=
  updateWith m sessionId
    (fun s => { s with endReason := some reason, errorDetails := error })

/-- The canonical Stop event payload (ClaudeStopEvent fields that the builder
fills in). -/
structure ClaudeStopEvent where
  hook_event_name : String
  session_id : String
  transcript_path : String
  cwd : String
  stop_hook_active : Bool

/-- SessionManager.buildStopEvent: a read-only builder. It returns the manager
state it was given unchanged, which records that the method body performs no
assignment; a missing session (a thrown error in the source) is none. -/
def buildStopEvent (m : ManagerState) (sessionId : String) :
    Option ClaudeStopEvent × ManagerState :=
  match lookupSession m sessionId with
  | none => (none, m)
  | some s =>
    (some { hook_event_name := "Stop", session_id := sessionId,
            transcript_path := s.transcriptPath, cwd := s.cwd,
            stop_hook_active := s.stopHookActive }, m)

/-- checkAndSendStopEvent from enhanced-claude-sender.ts: when the Stop latch
is set and the session is quiescent, build and send the Stop event and, only
when the send succeeded, reset the latch. sendOk stands for the transport
outcome of sendClaudeEvent. -/
def checkAndSendStopEvent (m : ManagerState) (sessionId : String)
    (sendOk : Bool) : ManagerState × Option ClaudeStopEvent :=
  match lookupSession m sessionId with
  | none => (m, none)
  | some s =>
    if s.stopHookActive = true ∧ s.isResponding = false ∧ s.activeTools = [] then
      let ev := (buildStopEvent m sessionId).1
      if sendOk then
        ({ m with
           sessions := mapSet m.sessions sessionId { s with stopHookActive := false } },
         ev)
      else (m, ev)
    else (m, none)

/-- One call of the SessionManager operations the Stop-latch claim ranges
over. -/
inductive SmOp where
  | startT (toolName : String) (args : List (String × JValue)) (now : Nat)
  | completeT (toolName : String)
  | setResp (responding : Bool)

/-- The record-level effect of one operation. -/
def applyOpS (sessionId : String) (s : SessionState) : SmOp → SessionState
  | .startT toolName args now => startToolS sessionId s toolName args now
  | .completeT toolName => completeToolS s toolName
  | .setResp b => setRespondingS s b

/-- One operation applied to the manager. -/
def applyOp (m : ManagerState) (sessionId : String) : SmOp → ManagerState
  | .startT toolName args now => startTool m sessionId toolName args now
  | .completeT toolName => completeTool m sessionId toolName
  | .setResp b => setResponding m sessionId b

/-- A sequence of operations applied left to right. -/
def applyOps (m : ManagerState) (sessionId : String) (ops : List SmOp) :
    ManagerState :=
  ops.foldl (fun acc op => applyOp acc sessionId op) m

/-- The condition under which the source's comment says a Stop event is due:
agent not responding, no active tools, at least one processed message. -/
def StopCond (s : SessionState) : Prop :=
  s.isResponding = false ∧ s.activeTools = [] ∧ 0 < s.messageCount

instance (s : SessionState) : Decidable (StopCond s) := by
  unfold StopCond; infer_instance

/-- The sentiment tags analyzeSentiment can return. -/
inductive Sentiment where
  | positive
  | negative
  | neutral
  | command
deriving DecidableEq

/-- The NotificationType enum (its JS string values are the snake-case
constructor names). -/
inductive NotificationType where
  | permission_needed
  | idle_warning
  | tool_blocked
  | error_occurred
  | session_update
  | context_limit
  | rate_limited
  | custom
deriving DecidableEq

/-- ResponseControl instructions received from the monitor. -/
structure ResponseControl where
  block : Bool
  reason : Option String := none
  modifiedPrompt : Option String := none
  contextToInject : Option String := none
  suppressOutput : Option Bool := none
  systemMessage : Option String := none

/-- PromptMetadata from src/services/user-interaction-handler.ts. -/
structure PromptMetadata where
  promptId : String
  sessionId : String
  timestamp : Nat
  originalPrompt : String
  modifiedPrompt : Option String
  wasBlocked : Bool
  blockReason : Option String
  contextInjected : Option String
  characterCount : Nat
  wordCount : Nat
  hasCodeBlocks : Bool
  hasUrls : Bool
  sentiment : Option Sentiment

/-- Count of the nonempty tokens of a whitespace split, as the source's
prompt.split on whitespace with empty tokens filtered out. -/
def wordCountAux : List Char → Bool → Nat
  | [], _ => 0
  | c :: rest, inWord =>
    if c.isWhitespace then wordCountAux rest false
    else (if inWord then 0 else 1) + wordCountAux rest true

/-- JS prompt.split on runs of whitespace, counting nonempty tokens. -/
def wordCountJS (s : String) : Nat :=
  wordCountAux s.data false

/-- The source's triple-backtick code-block regex test: some occurrence of
three backticks followed later by three more. -/
def hasCodeBlocksJS (s : String) : Bool :=
  (List.range (s.data.length + 1)).any (fun i =>
    "```".data.isPrefixOf (s.data.drop i) &&
      listContains ((s.data.drop i).drop 3) "```".data)

/-- Whether the list starts with a character that is not whitespace. -/
def nonSpaceHead : List Char → Bool
  | [] => false
  | c :: _ => !c.isWhitespace

/-- The source's URL regex test: http:// or https:// followed by at least one
non-whitespace character. -/
def hasUrlsJS (s : String) : Bool :=
  (List.range (s.data.length + 1)).any (fun i =>
    ("http://".data.isPrefixOf (s.data.drop i) && nonSpaceHead ((s.data.drop i).drop 7)) ||
    ("https://".data.isPrefixOf (s.data.drop i) && nonSpaceHead ((s.data.drop i).drop 8)))

/-- The command-like check of analyzeSentiment: the lowercased prompt starts
with one of the fixed imperative verbs. -/
def isCommandPrompt (lower : String) : Bool :=
  startsWithJS lower "create " || startsWithJS lower "make " ||
  startsWithJS lower "build " || startsWithJS lower "implement " ||
  startsWithJS lower "fix " || startsWithJS lower "update " ||
  startsWithJS lower "delete " || startsWithJS lower "run "

/-- The negative-lexicon check of analyzeSentiment. -/
def hasNegativeWord (lower : String) : Bool :=
  strContains lower "doesn't work" || strContains lower "error" ||
  strContains lower "bug" || strContains lower "wrong" ||
  strContains lower "failed" || strContains lower "can't"

/-- The positive-lexicon check of analyzeSentiment. -/
def hasPositiveWord (lower : String) : Bool :=
  strContains lower "great" || strContains lower "good" ||
  strContains lower "thanks" || strContains lower "perfect" ||
  strContains lower "excellent"

/-- analyzeSentiment: the ordered heuristic over the lowercased prompt. -/
def analyzeSentiment (prompt : String) : Sentiment :=
  let lower := toLowerJS prompt
  if isCommandPrompt lower then .command
  else if hasNegativeWord lower then .negative
  else if hasPositiveWord lower then .positive
  else .neutral

/-- The destructive-operation check of checkPromptTriggers. -/
def hasDestructiveContent (lower : String) : Bool :=
  strContains lower "rm -rf" || strContains lower "format " ||
  strContains lower "delete all" || strContains lower "drop database"

/-- The credential-like check of checkPromptTriggers. -/
def hasCredentialContent (lower : String) : Bool :=
  strContains lower "api key" || strContains lower "password" ||
  strContains lower "secret" || strContains lower "credential"

/-- checkPromptTriggers: ordered checks, first match wins. -/
def checkPromptTriggers (prompt : String) : Option NotificationType :=
  let lower := toLowerJS prompt
  if hasDestructiveContent lower then some .permission_needed
  else if hasCredentialContent lower then some .tool_blocked
  else if 10000 < prompt.length then some .context_limit
  else none

/-- The UserInteractionHandler's prompt stores (notifications are outside the
claims and omitted): prompts is the prompt-id lookup table, promptHistory the
per-session ordered id history. -/
structure HandlerState where
  prompts : List (String × PromptMetadata)
  promptHistory : List (String × List String)

/-- The history cap (maxHistorySize). -/
def maxHistorySize : Nat := 100

/-- UserInteractionHandler.processUserPrompt; now stands for Date.now(). -/
def processUserPrompt (h : HandlerState) (sessionId prompt : String)
    (control : Option ResponseControl) (now : Nat) :
    PromptMetadata × HandlerState :=
  let promptId := sessionId ++ "-prompt-" ++ toString now
  let metadata : PromptMetadata :=
    { promptId := promptId, sessionId := sessionId, timestamp := now,
      originalPrompt := prompt,
      modifiedPrompt := control.bind (fun c => c.modifiedPrompt),
      wasBlocked := (control.map (fun c => c.block)).getD false,
      blockReason := control.bind (fun c => c.reason),
      contextInjected := control.bind (fun c => c.contextToInject),
      characterCount := prompt.length, wordCount := wordCountJS prompt,
      hasCodeBlocks := hasCodeBlocksJS prompt, hasUrls := hasUrlsJS prompt,
      sentiment := some (analyzeSentiment prompt) }
  let prompts1 := mapSet h.prompts promptId metadata
  let history1 := ((mapGet h.promptHistory sessionId).getD []) ++ [promptId]
  if maxHistorySize < history1.length then
    match history1 with
    | [] => (metadata, { prompts := prompts1,
                         promptHistory := mapSet h.promptHistory sessionId [] })
    | removed :: rest =>
      (metadata, { prompts := mapDelete prompts1 removed,
                   promptHistory := mapSet h.promptHistory sessionId rest })
  else
    (metadata, { prompts := prompts1,
                 promptHistory := mapSet h.promptHistory sessionId history1 })

/-- UserInteractionHandler.getPromptHistory: the session's retained ids
resolved through the prompt table. -/
def getPromptHistory (h : HandlerState) (sessionId : String) :
    List PromptMetadata :=
  ((mapGet h.promptHistory sessionId).getD []).filterMap
    (fun id => mapGet h.prompts id)

/-- The aggregate getSessionStats returns; sentimentBreakdown is the
name-to-count record. -/
structure SessionStats where
  totalPrompts : Nat
  blockedPrompts : Nat
  averagePromptLength : Nat
  codeBlockCount : Nat
  urlCount : Nat
  sentimentBreakdown : List (String × Nat)

/-- The JS string key of a sentiment tag. -/
def Sentiment.key : Sentiment → String
  | .positive => "positive"
  | .negative => "negative"
  | .neutral => "neutral"
  | .command => "command"

/-- The accumulator of getSessionStats's single pass over the history. -/
structure StatsAcc where
  totalLength : Nat
  blockedCount : Nat
  codeBlockCount : Nat
  urlCount : Nat
  sentimentCounts : List (String × Nat)

/-- Math.round of num/den for nonnegative operands. -/
def jsRound (num den : Nat) : Nat :=
  (2 * num + den) / (2 * den)

/-- UserInteractionHandler.getSessionStats. -/
def getSessionStats (h : HandlerState) (sessionId : String) : SessionStats :=
  let history := getPromptHistory h sessionId
  if history.isEmpty then
    { totalPrompts := 0, blockedPrompts := 0, averagePromptLength := 0,
      codeBlockCount := 0, urlCount := 0, sentimentBreakdown := [] }
  else
    let start : StatsAcc :=
      { totalLength := 0, blockedCount := 0, codeBlockCount := 0, urlCount := 0,
        sentimentCounts :=
          [("positive", 0), ("negative", 0), ("neutral", 0), ("command", 0)] }
    let acc := history.foldl
      (fun acc p =>
        { totalLength := acc.totalLength + p.characterCount,
          blockedCount := acc.blockedCount + (if p.wasBlocked then 1 else 0),
          codeBlockCount := acc.codeBlockCount + (if p.hasCodeBlocks then 1 else 0),
          urlCount := acc.urlCount + (if p.hasUrls then 1 else 0),
          sentimentCounts :=
            match p.sentiment with
            | some sent =>
              mapSet acc.sentimentCounts sent.key
                ((mapGet acc.sentimentCounts sent.key).getD 0 + 1)
            | none => acc.sentimentCounts }) start
    { totalPrompts := history.length, blockedPrompts := acc.blockedCount,
      averagePromptLength := jsRound acc.totalLength history.length,
      codeBlockCount := acc.codeBlockCount, urlCount := acc.urlCount,
      sentimentBreakdown := acc.sentimentCounts }

/-- A manager with no sessions, constructed with concrete paths. -/
def emptyManager : ManagerState :=
  { sessions := [], cwd := "/workspace", transcriptBasePath := "/transcripts" }

/-- A throwaway session record used as getD default where a lookup is known
to succeed. -/
def defaultSession : SessionState :=
  (initSession emptyManager "default" none 0).1

/-- Session s1 initialized at time 0 with one user message at time 1:
messageCount is 1 and the agent is responding. -/
def c1Base : ManagerState :=
  handleUserMessage (initSession emptyManager "s1" (some Source.startup) 0).2 "s1" 1

/-- c1Base after setResponding false: the Stop latch is set. -/
def latchedManager : ManagerState :=
  applyOps c1Base "s1" [SmOp.setResp false]

/-- The session record of latchedManager. -/
def latchedSession : SessionState :=
  (lookupSession latchedManager "s1").getD defaultSession

/-- The session record of c1Base. -/
def c1BaseSession : SessionState :=
  (lookupSession c1Base "s1").getD defaultSession

/-- c1Base after the call sequence setResponding false; startTool Bash: the
Stop latch was set by the first call and a tool is active again after the
second. -/
def c1CounterM : ManagerState :=
  applyOps c1Base "s1" [SmOp.setResp false, SmOp.startT "Bash" [] 2]

/-- Twice the Task start/complete pair on a fresh session: the second
completion finds the subagent latch still set. -/
def c5CounterM : ManagerState :=
  let m0 := (initSession emptyManager "s1" (some Source.startup) 0).2
  let m1 := completeTool (startTool m0 "s1" "Task" [] 1) "s1" "Task"
  completeTool (startTool m1 "s1" "Task" [] 2) "s1" "Task"

/-- A handler with no recorded prompts. -/
def emptyHandler : HandlerState :=
  { prompts := [], promptHistory := [] }

/-- 105 prompts submitted to session s1 at times 0 through 104. -/
def submit105 : HandlerState :=
  (List.range 105).foldl
    (fun h i => (processUserPrompt h "s1" "hi" none i).2) emptyHandler

/-- The prompt ids of the 100 most recent of the 105 submissions. -/
def c7Expected : List String :=
  (List.range 100).map (fun i => "s1-prompt-" ++ toString (5 + i))

/-- The concrete history-cap scenario: after 105 submissions the stats report
100 prompts, the retained history is exactly the most recent 100 ids, and
each of the oldest 5 ids is gone from both the prompt table and the
history lookup. -/
def c7Check : Bool :=
  ((getSessionStats submit105 "s1").totalPrompts == 100) &&
  (((mapGet submit105.promptHistory "s1").getD []) == c7Expected) &&
  ([0, 1, 2, 3, 4].all (fun i =>
    (mapGet submit105.prompts ("s1-prompt-" ++ toString i)).isNone &&
    !(((getPromptHistory submit105 "s1").map (fun p => p.promptId)).contains
        ("s1-prompt-" ++ toString i))))

/-- A fresh session used to witness the subagent scenario. -/
def c5FreshM : ManagerState :=
  (initSession emptyManager "s1" (some Source.startup) 0).2

/-- The session record of c5FreshM. -/
def c5FreshS : SessionState :=
  (lookupSession c5FreshM "s1").getD defaultSession

/-- Setting a key makes it the key's value. -/
theorem mapGet_mapSet_self {α : Type} (l : List (String × α)) (k : String) (v : α) :
    mapGet (mapSet l k v) k = some v := by
  induction l with
  | nil => simp [mapGet, mapSet]
  | cons kv rest ih =>
    by_cases h : kv.1 = k
    · simp [mapGet, mapSet, h]
    · simp [mapGet, mapSet, h, ih]

/-- Looking a session up after an updateWith on the same id maps the update
over the previous lookup. -/
theorem lookupSession_updateWith (m : ManagerState) (sessionId : String)
    (f : SessionState → SessionState) :
    lookupSession (updateWith m sessionId f) sessionId =
      (lookupSession m sessionId).map f := by
  unfold updateWith
  cases h : lookupSession m sessionId with
  | none => simp [h]
  | some s => simp [h, lookupSession, mapGet_mapSet_self]

/-- C3. For a tool whose registry metadata is sensitive, sanitizeToolInput
returns exactly the redaction record with the sanitized marker, the parameter
count and the name-to-typeof mapping; consequently two argument mappings with
the same keys and the same typeof for each key sanitize to equal outputs, so
no argument value influences the output. -/
theorem sensitive_redaction :
    ∀ (toolName : String) (md : ToolMetadata) (args : List (String × JValue)),
      getToolMetadata toolName = some md → md.sensitive = true →
      sanitizeToolInput toolName args =
        SanitizedInput.redacted
          { sanitized := true, param_count := args.length,
            param_types := args.map (fun kv => (kv.1, typeofJS kv.2)) } ∧
      ∀ args2 : List (String × JValue),
        args.map (fun kv => (kv.1, typeofJS kv.2)) =
          args2.map (fun kv => (kv.1, typeofJS kv.2)) →
        sanitizeToolInput toolName args = sanitizeToolInput toolName args2 := by
  intro toolName md args hmd hsens
  constructor
  · simp [sanitizeToolInput, hmd, hsens]
  · intro args2 htypes
    have hlen : args.length = args2.length := by
      simpa using congrArg List.length htypes
    simp [sanitizeToolInput, hmd, hsens, htypes, hlen]

/-- Witness for C3: the Read tool (sensitive) at Scenario C's input; the
/etc/passwd path value does not survive, and changing it to another string
leaves the output unchanged. -/
theorem sensitive_redaction_witness :
    sanitizeToolInput "Read" [("file_path", JValue.vstr "/etc/passwd")] =
      SanitizedInput.redacted
        { sanitized := true, param_count := 1,
          param_types := [("file_path", "string")] } ∧
    sanitizeToolInput "Read" [("file_path", JValue.vstr "/etc/passwd")] =
      sanitizeToolInput "Read" [("file_path", JValue.vstr "elsewhere")] := by
  have h := sensitive_redaction "Read"
    { name := "Read", category := "File Operations",
      description := "Read file contents", sensitive := true }
    [("file_path", JValue.vstr "/etc/passwd")] rfl rfl
  exact ⟨h.1, h.2 [("file_path", JValue.vstr "elsewhere")] rfl⟩

/-- C6. For tools not flagged sensitive, sanitizeToolInput maps sanitizeValue
over every key/value pair, and sanitizeValue obeys the claimed per-key rules:
a string under key command is cut to its first 100 characters (exactly 100
when longer); pattern, glob and path keys pass through; any other string over
200 characters becomes its first 200 characters plus the truncation marker;
any object value becomes the string [object]; everything else passes
through. -/
theorem nonsensitive_sanitize_rules :
    (∀ (toolName : String) (args : List (String × JValue)),
      (∀ md, getToolMetadata toolName = some md → md.sensitive = false) →
      sanitizeToolInput toolName args =
        SanitizedInput.plain (sanitizeNonSensitiveArgs args)) ∧
    (∀ s : String, sanitizeValue "command" (JValue.vstr s) =
      JValue.vstr (jsSubstring s 100)) ∧
    (∀ s : String, 100 < s.length → (jsSubstring s 100).length = 100) ∧
    (∀ (k : String) (v : JValue), k = "pattern" ∨ k = "glob" ∨ k = "path" →
      sanitizeValue k v = v) ∧
    (∀ (k s : String), k ≠ "command" → ¬(k = "pattern" ∨ k = "glob" ∨ k = "path") →
      200 < s.length →
      sanitizeValue k (JValue.vstr s) =
        JValue.vstr (jsSubstring s 200 ++ "... [truncated]")) ∧
    (∀ (k : String) (v : JValue), ¬(k = "pattern" ∨ k = "glob" ∨ k = "path") →
      typeofJS v = "object" → sanitizeValue k v = JValue.vstr "[object]") ∧
    (∀ (k : String) (v : JValue), (k = "command" → typeofJS v ≠ "string") →
      ¬(k = "pattern" ∨ k = "glob" ∨ k = "path") →
      (typeofJS v = "string" → jsStrLen v ≤ 200) → typeofJS v ≠ "object" →
      sanitizeValue k v = v) := by
  refine ⟨?_, ?_, ?_, ?_, ?_, ?_, ?_⟩
  · intro toolName args hns
    cases hmd : getToolMetadata toolName with
    | none => simp [sanitizeToolInput, hmd]
    | some md => simp [sanitizeToolInput, hmd, hns md hmd]
  · intro s
    rw [sanitizeValue, if_pos ⟨rfl, rfl⟩]
    rfl
  · intro s h
    show (s.data.take 100).length = 100
    rw [List.length_take]
    exact Nat.min_eq_left (Nat.le_of_lt h)
  · intro k v hk
    have hkc : ¬(k = "command" ∧ typeofJS v = "string") := by
      rcases hk with rfl | rfl | rfl <;> exact fun hc => absurd hc.1 (by decide)
    rw [sanitizeValue, if_neg hkc, if_pos hk]
  · intro k s hk hpat hlen
    have h1 : ¬(k = "command" ∧ typeofJS (JValue.vstr s) = "string") := by
      intro h; exact hk h.1
    rw [sanitizeValue, if_neg h1, if_neg hpat, if_pos]
    · rfl
    · exact ⟨rfl, hlen⟩
  · intro k v hpat hobj
    have hstr : typeofJS v ≠ "string" := by rw [hobj]; decide
    rw [sanitizeValue, if_neg, if_neg hpat, if_neg, if_pos hobj]
    · intro h; exact hstr h.1
    · intro h; exact hstr h.2
  · intro k v hcmd hpat hlen hobj
    rw [sanitizeValue, if_neg, if_neg hpat, if_neg, if_neg hobj]
    · intro h; exact absurd h.2 (Nat.not_lt.mpr (hlen h.1))
    · intro h; exact hcmd h.1 h.2

/-- Witness for C6: a non-sensitive tool (Grep) with a 101-character command
truncated to 100 characters, a pattern passed through, a 201-character string
truncated with the marker, an object replaced by the marker string, and a
short string passed through. -/
theorem nonsensitive_sanitize_rules_witness :
    sanitizeToolInput "Grep"
      [("command", JValue.vstr (String.mk (List.replicate 101 'a'))),
       ("pattern", JValue.vstr "foo.*bar"),
       ("note", JValue.vstr (String.mk (List.replicate 201 'b'))),
       ("opts", JValue.vobj []), ("n", JValue.vnum 3)] =
      SanitizedInput.plain
        [("command", JValue.vstr (String.mk (List.replicate 100 'a'))),
         ("pattern", JValue.vstr "foo.*bar"),
         ("note", JValue.vstr (String.mk (List.replicate 200 'b') ++ "... [truncated]")),
         ("opts", JValue.vstr "[object]"), ("n", JValue.vnum 3)] ∧
    (jsSubstring (String.mk (List.replicate 101 'a')) 100).length = 100 := by
  have h1 := nonsensitive_sanitize_rules.1 "Grep"
    [("command", JValue.vstr (String.mk (List.replicate 101 'a'))),
     ("pattern", JValue.vstr "foo.*bar"),
     ("note", JValue.vstr (String.mk (List.replicate 201 'b'))),
     ("opts", JValue.vobj []), ("n", JValue.vnum 3)]
    (by
      intro md hmd
      have hG : getToolMetadata "Grep" =
          some { name := "Grep", category := "Search Operations",
                 description := "Search file contents" } := rfl
      rw [hG] at hmd
      injection hmd with hmd
      rw [← hmd])
  have h3 := nonsensitive_sanitize_rules.2.2.1
    (String.mk (List.replicate 101 'a')) (by decide)
  exact ⟨h1.trans (by rfl), h3⟩

/-- C10. A tool name outside the registry has no metadata, and
sanitizeToolInput therefore takes the non-sensitive path: values survive
subject only to the sanitizeValue truncation rules, with no redaction. -/
theorem unknown_tool_nonsensitive :
    ∀ (toolName : String) (args : List (String × JValue)),
      isClaudeTool toolName = false →
      getToolMetadata toolName = none ∧
      sanitizeToolInput toolName args =
        SanitizedInput.plain (sanitizeNonSensitiveArgs args) := by
  intro toolName args h
  have hmd : getToolMetadata toolName = none := by
    simp [getToolMetadata, h]
  exact ⟨hmd, by simp [sanitizeToolInput, hmd]⟩

/-- Witness for C10: an unregistered tool name; the short string argument
value survives unchanged in the sanitized output. -/
theorem unknown_tool_nonsensitive_witness :
    getToolMetadata "FooTool" = none ∧
    sanitizeToolInput "FooTool" [("x", JValue.vstr "hello")] =
      SanitizedInput.plain [("x", JValue.vstr "hello")] := by
  have h := unknown_tool_nonsensitive "FooTool" [("x", JValue.vstr "hello")]
    (by decide)
  exact ⟨h.1, h.2⟩

/-- C8. analyzeSentiment applies its checks in the fixed order command-prefix,
negative lexicon, positive lexicon, neutral: the example prompt starts with an
imperative verb and also matches the negative lexicon, yet is classified as a
command; in general each check fires exactly when the earlier ones do not. -/
theorem sentiment_priority :
    analyzeSentiment "Create a function that doesn't work" = Sentiment.command ∧
    hasNegativeWord (toLowerJS "Create a function that doesn't work") = true ∧
    (∀ p, isCommandPrompt (toLowerJS p) = true →
      analyzeSentiment p = Sentiment.command) ∧
    (∀ p, isCommandPrompt (toLowerJS p) = false →
      hasNegativeWord (toLowerJS p) = true →
      analyzeSentiment p = Sentiment.negative) ∧
    (∀ p, isCommandPrompt (toLowerJS p) = false →
      hasNegativeWord (toLowerJS p) = false →
      hasPositiveWord (toLowerJS p) = true →
      analyzeSentiment p = Sentiment.positive) ∧
    (∀ p, isCommandPrompt (toLowerJS p) = false →
      hasNegativeWord (toLowerJS p) = false →
      hasPositiveWord (toLowerJS p) = false →
      analyzeSentiment p = Sentiment.neutral) := by
  refine ⟨by decide, by decide, ?_, ?_, ?_, ?_⟩
  · intro p h1
    simp [analyzeSentiment, h1]
  · intro p h1 h2
    simp [analyzeSentiment, h1, h2]
  · intro p h1 h2 h3
    simp [analyzeSentiment, h1, h2, h3]
  · intro p h1 h2 h3
    simp [analyzeSentiment, h1, h2, h3]

/-- Witness for C8: one prompt per sentiment class, each discharged through
the priority theorem. -/
theorem sentiment_priority_witness :
    analyzeSentiment "fix the bug" = Sentiment.command ∧
    analyzeSentiment "there is a bug" = Sentiment.negative ∧
    analyzeSentiment "thanks a lot" = Sentiment.positive ∧
    analyzeSentiment "hello there" = Sentiment.neutral := by
  have h := sentiment_priority
  exact ⟨h.2.2.1 "fix the bug" (by decide),
         h.2.2.2.1 "there is a bug" (by decide) (by decide),
         h.2.2.2.2.1 "thanks a lot" (by decide) (by decide) (by decide),
         h.2.2.2.2.2 "hello there" (by decide) (by decide) (by decide)⟩

/-- C9. checkPromptTriggers evaluates destructive, credential and length
checks in that fixed order: a destructive match wins outright even when a
credential substring is also present, the context-limit result occurs exactly
when neither substring class matches and the text exceeds 10000 characters,
and a text matching none of the checks yields no trigger. -/
theorem trigger_priority :
    (∀ t, hasDestructiveContent (toLowerJS t) = true →
      checkPromptTriggers t = some NotificationType.permission_needed) ∧
    (∀ t, checkPromptTriggers t = some NotificationType.context_limit ↔
      (hasDestructiveContent (toLowerJS t) = false ∧
       hasCredentialContent (toLowerJS t) = false ∧ 10000 < t.length)) ∧
    (∀ t, hasDestructiveContent (toLowerJS t) = false →
      hasCredentialContent (toLowerJS t) = false → t.length ≤ 10000 →
      checkPromptTriggers t = none) ∧
    (checkPromptTriggers "Please rm -rf /tmp and read the password file" =
       some NotificationType.permission_needed ∧
     hasCredentialContent
       (toLowerJS "Please rm -rf /tmp and read the password file") = true) := by
  refine ⟨?_, ?_, ?_, by decide, by decide⟩
  · intro t h1
    simp [checkPromptTriggers, h1]
  · intro t
    cases h1 : hasDestructiveContent (toLowerJS t) <;>
      cases h2 : hasCredentialContent (toLowerJS t) <;>
        by_cases h3 : 10000 < t.length <;>
          simp [checkPromptTriggers, h1, h2, h3]
  · intro t h1 h2 h3
    simp [checkPromptTriggers, h1, h2, Nat.not_lt.mpr h3]

/-- Witness for C9: the destructive-plus-credential example goes through the
priority theorem, and a short harmless text triggers nothing. -/
theorem trigger_priority_witness :
    checkPromptTriggers "delete all rows, the api key is x" =
      some NotificationType.permission_needed ∧
    checkPromptTriggers "hello" = none := by
  exact ⟨trigger_priority.1 "delete all rows, the api key is x" (by decide),
         trigger_priority.2.2.1 "hello" (by decide) (by decide) (by decide)⟩

/-- Resuming an existing session updates only source and lastActivity of the
existing record and re-registers it. -/
theorem initSession_resume (m : ManagerState) (sessionId : String)
    (s : SessionState) (now : Nat) (h : lookupSession m sessionId = some s) :
    initSession m sessionId (some Source.resume) now =
      ({ s with source := Source.resume, lastActivity := now },
       { m with sessions := mapSet m.sessions sessionId ({ s with source := Source.resume, lastActivity := now }) }) := by
  unfold initSession
  rw [h]

/-- C4. Resuming an existing session twice returns the existing record both
times, with only source and lastActivity updated: in particular toolCallCount
and completedTools are exactly those of the original record after each
call. -/
theorem resume_idempotent :
    ∀ (m : ManagerState) (sessionId : String) (s0 : SessionState)
      (now1 now2 : Nat),
      lookupSession m sessionId = some s0 →
      (initSession m sessionId (some Source.resume) now1).1 =
        { s0 with source := Source.resume, lastActivity := now1 } ∧
      (initSession (initSession m sessionId (some Source.resume) now1).2
          sessionId (some Source.resume) now2).1 =
        { s0 with source := Source.resume, lastActivity := now2 } ∧
      lookupSession (initSession (initSession m sessionId (some Source.resume)
          now1).2 sessionId (some Source.resume) now2).2 sessionId =
        some { s0 with source := Source.resume, lastActivity := now2 } ∧
      ({ s0 with source := Source.resume, lastActivity := now2 } :
          SessionState).toolCallCount = s0.toolCallCount ∧
      ({ s0 with source := Source.resume, lastActivity := now2 } :
          SessionState).completedTools = s0.completedTools := by
  intro m sessionId s0 now1 now2 h0
  have e1 := initSession_resume m sessionId s0 now1 h0
  have hl1 : lookupSession (initSession m sessionId (some Source.resume) now1).2
      sessionId = some { s0 with source := Source.resume, lastActivity := now1 } := by
    rw [e1]
    exact mapGet_mapSet_self m.sessions sessionId _
  have e2 := initSession_resume (initSession m sessionId (some Source.resume) now1).2
    sessionId { s0 with source := Source.resume, lastActivity := now1 } now2 hl1
  refine ⟨by rw [e1], by rw [e2], ?_, rfl, rfl⟩
  rw [e2]
  exact mapGet_mapSet_self _ sessionId _

/-- Witness for C4: a concrete manager holding one session resumed twice. -/
theorem resume_idempotent_witness :
    (initSession (initSession c1Base "s1" (some Source.resume) 7).2 "s1"
        (some Source.resume) 9).1 =
      { c1BaseSession with source := Source.resume, lastActivity := 9 } ∧
    ({ c1BaseSession with source := Source.resume, lastActivity := 9 } :
        SessionState).toolCallCount = c1BaseSession.toolCallCount := by
  have h := resume_idempotent c1Base "s1" c1BaseSession 7 9 rfl
  exact ⟨h.2.1, h.2.2.2.1⟩

/-- Counterexample to C2 as stated: in a concrete session whose Stop latch is
set, building the Stop event (buildStopEvent) leaves stopHookActive still
true in the session state; the build alone does not reset the latch. -/
theorem stop_consume_counterexample :
    (lookupSession (buildStopEvent latchedManager "s1").2 "s1").map
      (fun s => s.stopHookActive) = some true ∧
    ((buildStopEvent latchedManager "s1").1.map
      (fun ev => ev.stop_hook_active)) = some true := by
  exact ⟨rfl, rfl⟩

/-- When the send guard holds, checkAndSendStopEvent resets the latch on a
successful send and leaves the manager unchanged on a failed one, returning
the built event either way. -/
theorem checkAndSendStopEvent_eq (m : ManagerState) (sessionId : String)
    (s : SessionState) (sendOk : Bool)
    (h : lookupSession m sessionId = some s)
    (hc : s.stopHookActive = true ∧ s.isResponding = false ∧ s.activeTools = []) :
    checkAndSendStopEvent m sessionId sendOk =
      (if sendOk then
        ({ m with sessions := mapSet m.sessions sessionId ({ s with stopHookActive := false }) },
         (buildStopEvent m sessionId).1)
       else (m, (buildStopEvent m sessionId).1)) := by
  unfold checkAndSendStopEvent
  rw [h]
  simp only [if_pos hc]

/-- C2 amended. buildStopEvent is a pure read: it returns the Stop event
carrying stop_hook_active = true and leaves the manager unchanged. The latch
is instead reset by checkAndSendStopEvent immediately after the Stop event is
successfully sent (given the send guard: latch set, not responding, no active
tools); on a failed send the state, and hence the latch, is left unchanged. -/
theorem stop_consume_amended :
    ∀ (m : ManagerState) (sessionId : String) (s : SessionState),
      lookupSession m sessionId = some s → s.stopHookActive = true →
      ((buildStopEvent m sessionId).1 = some
         { hook_event_name := "Stop", session_id := sessionId,
           transcript_path := s.transcriptPath, cwd := s.cwd,
           stop_hook_active := true } ∧
       (buildStopEvent m sessionId).2 = m) ∧
      (s.isResponding = false → s.activeTools = [] →
        lookupSession (checkAndSendStopEvent m sessionId true).1 sessionId =
          some { s with stopHookActive := false } ∧
        (checkAndSendStopEvent m sessionId true).2 = some
          { hook_event_name := "Stop", session_id := sessionId,
            transcript_path := s.transcriptPath, cwd := s.cwd,
            stop_hook_active := true } ∧
        (checkAndSendStopEvent m sessionId false).1 = m) := by
  intro m sessionId s h0 hstop
  have hbuild : buildStopEvent m sessionId =
      (some { hook_event_name := "Stop", session_id := sessionId,
              transcript_path := s.transcriptPath, cwd := s.cwd,
              stop_hook_active := s.stopHookActive }, m) := by
    unfold buildStopEvent
    rw [h0]
  refine ⟨⟨by rw [hbuild, hstop], by rw [hbuild]⟩, ?_⟩
  intro hresp htools
  have hc : s.stopHookActive = true ∧ s.isResponding = false ∧ s.activeTools = [] :=
    ⟨hstop, hresp, htools⟩
  refine ⟨?_, ?_, ?_⟩
  · rw [checkAndSendStopEvent_eq m sessionId s true h0 hc]
    simp only [if_true]
    exact mapGet_mapSet_self m.sessions sessionId _
  · rw [checkAndSendStopEvent_eq m sessionId s true h0 hc]
    simp only [if_true]
    rw [hbuild, hstop]
  · rw [checkAndSendStopEvent_eq m sessionId s false h0 hc]
    rfl

/-- Witness for C2 amended: the concrete latched session; a successful send
resets the latch, a failed one leaves the manager unchanged. -/
theorem stop_consume_amended_witness :
    lookupSession (checkAndSendStopEvent latchedManager "s1" true).1 "s1" =
      some { latchedSession with stopHookActive := false } ∧
    (checkAndSendStopEvent latchedManager "s1" false).1 = latchedManager := by
  have h := stop_consume_amended latchedManager "s1" latchedSession rfl rfl
  exact ⟨(h.2 rfl rfl).1, (h.2 rfl rfl).2.2⟩

/-- checkForStopEvent touches only stopHookActive. -/
theorem checkForStopEvent_hasSubagent (s : SessionState) :
    (checkForStopEvent s).hasSubagent = s.hasSubagent := by
  unfold checkForStopEvent
  split <;> rfl

/-- checkForStopEvent leaves the subagent latch unchanged. -/
theorem checkForStopEvent_subagentStop (s : SessionState) :
    (checkForStopEvent s).subagentStopHookActive = s.subagentStopHookActive := by
  unfold checkForStopEvent
  split <;> rfl

/-- Completing Task on a record with a subagent in flight and a clear latch
sets the latch and clears hasSubagent. -/
theorem completeToolS_task (u : SessionState) (hu : u.hasSubagent = true)
    (hsu : u.subagentStopHookActive = false) :
    (completeToolS u "Task").subagentStopHookActive = true ∧
    (completeToolS u "Task").hasSubagent = false := by
  simp only [completeToolS, handleSubagentStop, hu, hsu]
  simp only [if_true, and_true, true_and, and_self, if_pos]
  split
  · rw [checkForStopEvent_subagentStop, checkForStopEvent_hasSubagent]
    exact ⟨rfl, rfl⟩
  · exact ⟨rfl, rfl⟩

/-- Completing Task on a record whose subagent latch is already set leaves
hasSubagent unchanged. -/
theorem completeToolS_task_latched (u : SessionState)
    (hsu : u.subagentStopHookActive = true) :
    (completeToolS u "Task").hasSubagent = u.hasSubagent := by
  simp only [completeToolS, handleSubagentStop, hsu]
  simp only [Bool.true_eq_false, and_false, if_false]
  split <;> split <;>
    first
    | rw [checkForStopEvent_hasSubagent]
    | rfl

/-- startTool on the Task tool marks a subagent as in flight. -/
theorem startToolS_hasSubagent_task (sessionId : String) (s : SessionState)
    (args : List (String × JValue)) (now : Nat) :
    (startToolS sessionId s "Task" args now).hasSubagent = true := by
  simp [startToolS]

/-- startTool never touches the subagent latch. -/
theorem startToolS_subagentStop (sessionId : String) (s : SessionState)
    (toolName : String) (args : List (String × JValue)) (now : Nat) :
    (startToolS sessionId s toolName args now).subagentStopHookActive =
      s.subagentStopHookActive := by
  simp only [startToolS]
  split <;> rfl

/-- Counterexample to C5's general clause: on an initialized session, running
the startTool Task / completeTool Task pair twice leaves hasSubagent true
after the second pair (the subagent latch, still set from the first pair,
blocks handleSubagentStop), while the claim demands hasSubagent false. -/
theorem subagent_stop_counterexample :
    (lookupSession c5CounterM "s1").map
      (fun s => (s.subagentStopHookActive, s.hasSubagent)) =
      some (true, true) := by
  exact rfl

/-- C5 amended. On a session whose subagent latch is clear, startTool Task
followed by completeTool Task sets subagentStopHookActive and clears
hasSubagent; but when the latch is still set from an unconsumed earlier
SubagentStop, completeTool Task leaves hasSubagent unchanged rather than
clearing it. -/
theorem subagent_stop_amended :
    (∀ (m : ManagerState) (sessionId : String) (s : SessionState)
        (args : List (String × JValue)) (now : Nat),
      lookupSession m sessionId = some s → s.subagentStopHookActive = false →
      (lookupSession (completeTool (startTool m sessionId "Task" args now)
          sessionId "Task") sessionId).map
        (fun s1 => (s1.subagentStopHookActive, s1.hasSubagent)) =
        some (true, false)) ∧
    (∀ (m : ManagerState) (sessionId : String) (s : SessionState),
      lookupSession m sessionId = some s → s.subagentStopHookActive = true →
      (lookupSession (completeTool m sessionId "Task") sessionId).map
        (fun s1 => s1.hasSubagent) = some s.hasSubagent) := by
  constructor
  · intro m sessionId s args now h0 hsub
    simp only [completeTool, startTool, lookupSession_updateWith, h0,
      Option.map_some']
    have hTa := startToolS_hasSubagent_task sessionId s args now
    have hTb := (startToolS_subagentStop sessionId s "Task" args now).trans hsub
    obtain ⟨e1, e2⟩ := completeToolS_task _ hTa hTb
    rw [e1, e2]
  · intro m sessionId s h0 hsub
    simp only [completeTool, lookupSession_updateWith, h0, Option.map_some']
    rw [completeToolS_task_latched s hsub]

/-- Witness for C5 amended: Scenario B on a fresh session, through the
amended theorem. -/
theorem subagent_stop_amended_witness :
    (lookupSession (completeTool (startTool c5FreshM "s1" "Task" [] 1) "s1"
        "Task") "s1").map
      (fun s1 => (s1.subagentStopHookActive, s1.hasSubagent)) =
      some (true, false) := by
  exact subagent_stop_amended.1 c5FreshM "s1" c5FreshS [] 1 rfl rfl

/-- checkForStopEvent leaves isResponding unchanged. -/
theorem checkForStopEvent_isResponding (s : SessionState) :
    (checkForStopEvent s).isResponding = s.isResponding := by
  unfold checkForStopEvent
  split <;> rfl

/-- checkForStopEvent leaves activeTools unchanged. -/
theorem checkForStopEvent_activeTools (s : SessionState) :
    (checkForStopEvent s).activeTools = s.activeTools := by
  unfold checkForStopEvent
  split <;> rfl

/-- checkForStopEvent leaves messageCount unchanged. -/
theorem checkForStopEvent_messageCount (s : SessionState) :
    (checkForStopEvent s).messageCount = s.messageCount := by
  unfold checkForStopEvent
  split <;> rfl

/-- The Stop condition is unaffected by checkForStopEvent. -/
theorem stopCond_checkForStopEvent (s : SessionState) :
    StopCond (checkForStopEvent s) ↔ StopCond s := by
  unfold StopCond
  rw [checkForStopEvent_isResponding, checkForStopEvent_activeTools,
    checkForStopEvent_messageCount]

/-- The latch after checkForStopEvent is set exactly when it already was or
the Stop condition holds. -/
theorem checkForStopEvent_latch (s : SessionState) :
    (checkForStopEvent s).stopHookActive = true ↔
      (s.stopHookActive = true ∨ StopCond s) := by
  unfold checkForStopEvent
  split
  · rename_i h
    constructor
    · intro _
      exact Or.inr ⟨h.1, h.2.1, h.2.2.1⟩
    · intro _
      rfl
  · rename_i h
    constructor
    · exact Or.inl
    · intro hor
      rcases hor with h1 | h1
      · exact h1
      · by_cases hs : s.stopHookActive = true
        · exact hs
        · have hsf : s.stopHookActive = false := by
            simp at hs
            exact hs
          exact absurd ⟨h1.1, h1.2.1, h1.2.2, hsf⟩ h

/-- The latch after the guarded Stop check of completeTool is set exactly
when it already was or the Stop condition holds afterward; the Stop
condition itself is unaffected. -/
theorem stopCheck_latch (w : SessionState) :
    ((if w.activeTools = [] ∧ w.isResponding = false
        then checkForStopEvent w else w).stopHookActive = true ↔
      (w.stopHookActive = true ∨
       StopCond (if w.activeTools = [] ∧ w.isResponding = false
        then checkForStopEvent w else w))) ∧
    (StopCond (if w.activeTools = [] ∧ w.isResponding = false
        then checkForStopEvent w else w) ↔ StopCond w) := by
  split
  · constructor
    · rw [checkForStopEvent_latch, stopCond_checkForStopEvent]
    · exact stopCond_checkForStopEvent w
  · rename_i h
    constructor
    · constructor
      · exact Or.inl
      · intro hor
        rcases hor with h1 | h1
        · exact h1
        · exact absurd ⟨h1.2.1, h1.1⟩ h
    · exact Iff.rfl

/-- handleSubagentStop leaves the Stop latch unchanged. -/
theorem handleSubagentStop_stopHookActive (v : SessionState) :
    (handleSubagentStop v).stopHookActive = v.stopHookActive := by
  unfold handleSubagentStop
  split <;> rfl

/-- The guarded subagent check leaves the Stop latch unchanged. -/
theorem subagentCheck_stopHookActive (c : Prop) [Decidable c]
    (v : SessionState) :
    (if c then handleSubagentStop v else v).stopHookActive =
      v.stopHookActive := by
  split
  · exact handleSubagentStop_stopHookActive v
  · rfl

/-- startTool leaves the Stop latch unchanged. -/
theorem startToolS_stopHookActive (sessionId : String) (s : SessionState)
    (toolName : String) (args : List (String × JValue)) (now : Nat) :
    (startToolS sessionId s toolName args now).stopHookActive =
      s.stopHookActive := by
  simp only [startToolS]
  split <;> rfl

/-- startTool's active set is the previous one with the tool added. -/
theorem startToolS_activeTools (sessionId : String) (s : SessionState)
    (toolName : String) (args : List (String × JValue)) (now : Nat) :
    (startToolS sessionId s toolName args now).activeTools =
      setAdd s.activeTools toolName := by
  simp only [startToolS]
  split <;> rfl

/-- Adding to a set never yields the empty set. -/
theorem setAdd_ne_nil (l : List String) (x : String) : setAdd l x ≠ [] := by
  unfold setAdd
  split
  · rename_i h
    intro hnil
    subst hnil
    simp at h
  · simp

/-- The Stop latch after one operation is set exactly when it already was or
the Stop condition holds in the resulting record. -/
theorem applyOpS_latch_iff (sessionId : String) (s : SessionState) (op : SmOp) :
    (applyOpS sessionId s op).stopHookActive = true ↔
      (s.stopHookActive = true ∨ StopCond (applyOpS sessionId s op)) := by
  cases op with
  | startT t args now =>
    simp only [applyOpS]
    rw [startToolS_stopHookActive]
    constructor
    · exact Or.inl
    · intro hor
      rcases hor with h1 | h1
      · exact h1
      · obtain ⟨_, hb, _⟩ := h1
        rw [startToolS_activeTools] at hb
        exact absurd hb (setAdd_ne_nil s.activeTools t)
  | completeT t =>
    simp only [applyOpS, completeToolS]
    refine Iff.trans (stopCheck_latch _).1 ?_
    rw [(stopCheck_latch _).2, subagentCheck_stopHookActive]
  | setResp b =>
    cases b with
    | false =>
      simp only [applyOpS, setRespondingS, if_true]
      rw [checkForStopEvent_latch, stopCond_checkForStopEvent]
    | true =>
      simp only [applyOpS, setRespondingS, Bool.true_eq_false, if_false]
      constructor
      · exact Or.inl
      · intro hor
        rcases hor with h1 | h1
        · exact h1
        · obtain ⟨ha, _, _⟩ := h1
          exact Bool.noConfusion ha

/-- Applying one operation commutes with the session lookup. -/
theorem lookupSession_applyOp (m : ManagerState) (sessionId : String)
    (op : SmOp) :
    lookupSession (applyOp m sessionId op) sessionId =
      (lookupSession m sessionId).map (fun s => applyOpS sessionId s op) := by
  cases op <;>
    simp only [applyOp, applyOpS, startTool, completeTool, setResponding,
      lookupSession_updateWith]

/-- Counterexample to C1 as stated: after the call sequence setResponding
false; startTool Bash on a session with one processed message, the final
state has stopHookActive true while activeTools is nonempty, so the final
latch value is not equivalent to the Stop condition at the last call
(startTool neither resets the latch nor satisfies the condition). -/
theorem stop_latch_counterexample :
    (lookupSession c1CounterM "s1").map (fun s => s.stopHookActive) =
      some true ∧
    (lookupSession c1CounterM "s1").map (fun s => s.activeTools) =
      some ["Bash"] := by
  exact ⟨rfl, rfl⟩

/-- C1 amended. Soundness: an operation that turns stopHookActive from false
to true leaves the session satisfying the Stop condition (isResponding
false, activeTools empty, messageCount positive) — no operation ever sets
the latch in a state where the condition fails. Completeness: after any
nonempty sequence of startTool/completeTool/setResponding calls whose final
state satisfies the Stop condition, stopHookActive is true. The converse
direction of the original claim fails: the latch can remain true after a
later startTool falsifies the condition, since none of these operations
resets it. -/
theorem stop_latch_amended :
    (∀ (m : ManagerState) (sessionId : String) (op : SmOp)
        (s0 s1 : SessionState),
      lookupSession m sessionId = some s0 →
      lookupSession (applyOp m sessionId op) sessionId = some s1 →
      s0.stopHookActive = false → s1.stopHookActive = true → StopCond s1) ∧
    (∀ (m : ManagerState) (sessionId : String) (ops : List SmOp)
        (s1 : SessionState),
      ops ≠ [] →
      lookupSession (applyOps m sessionId ops) sessionId = some s1 →
      StopCond s1 → s1.stopHookActive = true) := by
  constructor
  · intro m sessionId op s0 s1 h0 h1 hstop0 hstop1
    rw [lookupSession_applyOp, h0] at h1
    simp only [Option.map_some'] at h1
    injection h1 with h1
    rw [← h1] at hstop1 ⊢
    rcases (applyOpS_latch_iff sessionId s0 op).mp hstop1 with h | h
    · rw [hstop0] at h
      exact Bool.noConfusion h
    · exact h
  · intro m sessionId ops s1 hne hlk hcond
    rcases List.eq_nil_or_concat ops with rfl | ⟨L, op, rfl⟩
    · exact absurd rfl hne
    · have hsplit : applyOps m sessionId (L.concat op) =
          applyOp (applyOps m sessionId L) sessionId op := by
        simp [applyOps, List.concat_eq_append, List.foldl_append]
      rw [hsplit, lookupSession_applyOp] at hlk
      cases hL : lookupSession (applyOps m sessionId L) sessionId with
      | none =>
        rw [hL] at hlk
        simp at hlk
      | some s0 =>
        rw [hL] at hlk
        simp only [Option.map_some'] at hlk
        injection hlk with hlk
        rw [← hlk] at hcond ⊢
        exact (applyOpS_latch_iff sessionId s0 op).mpr (Or.inr hcond)

/-- Witness for C1 amended: on the concrete session with one message, the
call setResponding false latches the Stop flag (completeness), and the
soundness part certifies the Stop condition in the resulting state. -/
theorem stop_latch_amended_witness :
    latchedSession.stopHookActive = true ∧ StopCond latchedSession := by
  have h2 : latchedSession.stopHookActive = true :=
    stop_latch_amended.2 c1Base "s1" [SmOp.setResp false] latchedSession
      (by simp) rfl (by decide)
  exact ⟨h2, stop_latch_amended.1 c1Base "s1" (SmOp.setResp false)
    c1BaseSession latchedSession rfl rfl rfl h2⟩

set_option maxHeartbeats 8000000 in
/-- C7. The per-session prompt history never exceeds 100 entries (one
submission on a within-cap history stays within the cap), and concretely
after 105 submissions: getSessionStats reports exactly 100 prompts, the
retained history is precisely the 100 most recent ids, and each of the 5
oldest ids is purged from the prompt table and absent from the history
lookup. -/
theorem prompt_history_cap :
    (∀ (h : HandlerState) (sessionId prompt : String)
        (control : Option ResponseControl) (now : Nat),
      ((mapGet h.promptHistory sessionId).getD []).length ≤ maxHistorySize →
      ((mapGet (processUserPrompt h sessionId prompt control now).2.promptHistory
          sessionId).getD []).length ≤ maxHistorySize) ∧
    c7Check = true := by
  constructor
  · intro h sessionId prompt control now hcap
    simp only [processUserPrompt]
    by_cases hover : maxHistorySize <
        (((mapGet h.promptHistory sessionId).getD []) ++
          [sessionId ++ "-prompt-" ++ toString now]).length
    · rw [if_pos hover]
      cases hh : ((mapGet h.promptHistory sessionId).getD []) ++
          [sessionId ++ "-prompt-" ++ toString now] with
      | nil => simp at hh
      | cons removed rest =>
        simp only [mapGet_mapSet_self, Option.getD_some]
        have hlen : ((mapGet h.promptHistory sessionId).getD []).length + 1 =
            rest.length + 1 := by
          have := congrArg List.length hh
          simpa using this
        omega
    · rw [if_neg hover]
      simp only [mapGet_mapSet_self, Option.getD_some]
      simp only [List.length_append, List.length_singleton] at hover ⊢
      omega
  · decide

/-- Witness for C7: the cap invariant applied to the empty handler. -/
theorem prompt_history_cap_witness :
    ((mapGet (processUserPrompt emptyHandler "s1" "hi" none 0).2.promptHistory
        "s1").getD []).length ≤ maxHistorySize := by
  exact prompt_history_cap.1 emptyHandler "s1" "hi" none 0 (by decide)

end AgentMonitor
